import Mathlib

/-!
Shallow embedding of `pkg/cmd/validate.go` of kubectl-validate.

External collaborators (the yaml parser, the validator factory, the
Kubernetes decoder/admission machinery and the file-system helpers of
`pkg/utils`) are modelled as oracle parameters (`Env`, `FileEnv`): every
claim below quantifies over their behaviour, so the theorems hold for
every implementation of those collaborators.  The control flow, error
construction and data plumbing of `validate.go` itself are translated
line by line.  Calls whose occurrence the specification talks about
(`ValidatorsForGVK`, the native CRD path, decoding, strategy
construction) are additionally recorded in an event trace.
-/

/-- Raw bytes of one document or file, modelled as a string. -/
abbrev Doc := String

/-- Modelled from `k8s.io/apimachinery` `schema.GroupVersionKind`. -/
structure GVK where
  group : String
  version : String
  kind : String
deriving DecidableEq, Repr

/-- Embedding of `GroupVersionKind.Empty`: all three components empty. -/
def GVK.Empty (gvk : GVK) : Bool :=
  gvk.group == "" && gvk.version == "" && gvk.kind == ""

/-- Number of slash characters in a string (`strings.Count(gv, "/")`). -/
def countSlash (s : String) : Nat :=
  s.toList.countP (fun c => c == '/')

/-- Split a group/version string at its first slash (`strings.Index` based
split of `schema.ParseGroupVersion`). -/
def splitAtSlash (gv : String) : String × String :=
  (String.mk (gv.toList.takeWhile (fun c => c != '/')),
   String.mk ((gv.toList.dropWhile (fun c => c != '/')).drop 1))

/-- Embedding of `schema.ParseGroupVersion`: `none` models the error case
of more than one slash. -/
def parseGroupVersion (gv : String) : Option (String × String) :=
  if gv == "" || gv == "/" then some ("", "")
  else match countSlash gv with
    | 0 => some ("", gv)
    | 1 => some (splitAtSlash gv)
    | _ => none

/-- Embedding of `schema.FromAPIVersionAndKind`. -/
def fromAPIVersionAndKind (apiVersion kind : String) : GVK :=
  match parseGroupVersion apiVersion with
  | some gv => { group := gv.1, version := gv.2, kind := kind }
  | none => { group := "", version := "", kind := kind }

/-- Embedding of `metav1.TypeMeta`: the two fields read by
`ValidateDocument` step 1. -/
structure TypeMeta where
  apiVersion : String
  kind : String
deriving DecidableEq, Repr

/-- Decoded unstructured object: the fields `ValidateDocument` reads or
writes (`GetAPIVersion`/`SetAPIVersion`, `GetNamespace`/`SetNamespace`);
`payload` stands for the remaining content. -/
structure Obj where
  apiVersion : String
  ns : String
  payload : String
deriving DecidableEq, Repr

/-- Embedding of `metav1.StatusCause` (the fields built by
`k8serrors.NewInvalid` / `NewInternalError`). -/
structure StatusCause where
  type : String
  message : String
  field : String
deriving DecidableEq, Repr

/-- Embedding of `metav1.Status`; `details` holds the cause list of
`StatusDetails` (`none` models a nil `Details` pointer). -/
structure Status where
  status : String
  message : String
  reason : String
  code : Nat
  details : Option (List StatusCause)
deriving DecidableEq, Repr

/-- Embedding of `field.Error` (`k8s.io/apimachinery` field validation
errors). -/
structure FieldError where
  type : String
  field : String
  badValue : String
  detail : String
deriving DecidableEq, Repr

/-- Embedding of `field.Error.ErrorBody` of the external library (value
rendering abbreviated to the stored string). -/
def FieldError.errorBody (f : FieldError) : String :=
  (if f.type == "FieldValueRequired" || f.type == "FieldValueForbidden"
      || f.type == "FieldValueTooLong" || f.type == "InternalError"
   then f.type
   else f.type ++ ": " ++ f.badValue)
  ++ (if f.detail == "" then "" else ": " ++ f.detail)

/-- Go error values reaching `errorToStatus`: plain messages
(`fmt.Errorf`), wrapping (`%w`), `field.Error`, `StatusError` and
`utilerrors.Aggregate`.  These are the dynamic shapes `errorToStatus`
distinguishes with `errors.As`. -/
inductive KError where
  | msg (s : String)
  | wrap (pre : String) (inner : KError)
  | fieldErr (f : FieldError)
  | statusErr (s : Status)
  | aggregate (errs : List KError)

/-- Embedding of `errors.As(err, &statusErr)`: a `StatusError` found
directly or through `%w` unwrapping (neither `field.Error` nor the k8s
aggregate implement `Unwrap`). -/
def asStatusErr : KError → Option Status
  | .statusErr s => some s
  | .wrap _ e => asStatusErr e
  | _ => none

/-- Embedding of `errors.As(err, &fieldError)`. -/
def asFieldErr : KError → Option FieldError
  | .fieldErr f => some f
  | .wrap _ e => asFieldErr e
  | _ => none

/-- Embedding of `errors.As(err, &errorList)` for the
`utilerrors.Aggregate` interface target. -/
def asAggregate : KError → Option (List KError)
  | .aggregate errs => some errs
  | .wrap _ e => asAggregate e
  | _ => none

/-- Embedding of `err.Error()`; the bracketed rendering the external
aggregate type performs is abbreviated, no claim depends on it. -/
def KError.message : KError → String
  | .msg s => s
  | .wrap pre e => pre ++ KError.message e
  | .fieldErr f => f.field ++ ": " ++ f.errorBody
  | .statusErr s => s.message
  | .aggregate _ => "[aggregate]"

/-- Status returned by `errorToStatus` for a nil error:
`metav1.Status{Status: metav1.StatusSuccess}`. -/
def statusSuccess : Status :=
  { status := "Success", message := "", reason := "", code := 0, details := none }

/-- Cause built for one field error by `k8serrors.NewInvalid`. -/
def causeOfFieldError (f : FieldError) : StatusCause :=
  { type := f.type, message := f.errorBody, field := f.field }

/-- Embedding of `k8serrors.NewInvalid(schema.GroupKind{}, "", errs)
.ErrStatus` (message text of the external library abbreviated). -/
def newInvalid (errs : List FieldError) : Status :=
  { status := "Failure", message := "is invalid", reason := "Invalid",
    code := 422, details := some (errs.map causeOfFieldError) }

/-- Embedding of `k8serrors.NewInternalError(err).ErrStatus` given the
message of `err`. -/
def newInternalError (m : String) : Status :=
  { status := "Failure", message := "Internal error occurred: " ++ m,
    reason := "InternalError", code := 500,
    details := some [{ type := "", message := m, field := "" }] }

/-- Embedding of `errors.Join(otherErrs...).Error()`: messages joined by
newlines. -/
def joinedMessage (errs : List KError) : String :=
  String.intercalate "\n" (errs.map KError.message)

/-- Embedding of `errorToStatus` (validate.go lines 116-145); `none`
models a nil error. -/
def errorToStatus : Option KError → Status
  | none => statusSuccess
  | some err =>
    match asStatusErr err with
    | some s => s
    | none =>
      match asFieldErr err with
      | some f => newInvalid [f]
      | none =>
        match asAggregate err with
        | some errs =>
          let fieldErrs := errs.filterMap asFieldErr
          let otherErrs := errs.filter (fun e => (asFieldErr e).isNone)
          if otherErrs.isEmpty then newInvalid fieldErrs
          else newInternalError (joinedMessage otherErrs)
        | none => newInternalError err.message

/-- Structural schema content, opaque to the dispatcher. -/
abbrev SSchema := String

/-- Native runtime object of the CRD decode path, opaque to the
dispatcher. -/
abbrev NativeObj := String

/-- Decoder obtained from `validators.Decoder(gvk)`: `hasYamlSupport`
models `runtime.SerializerInfoForMediaType(..., runtime.ContentTypeYAML)`
succeeding, and `decode` the composed
`DecoderToVersion(info.StrictSerializer, gvk.GroupVersion()).Decode`. -/
structure DecoderT where
  hasYamlSupport : Bool
  decode : Doc → GVK → Except KError Obj

/-- Validators bundle returned by `ValidatorsForGVK`:
`structuralSchemaRes` is the `(ss, err)` pair of `StructuralSchema()`,
`decoderFor` is `Decoder(gvk)`, `isNamespaceScoped` the scope flag. -/
structure Validators where
  structuralSchemaRes : Option SSchema × Option KError
  decoderFor : GVK → Except KError DecoderT
  isNamespaceScoped : Bool

/-- Oracles for the external collaborators of `ValidateDocument`:
yaml type-metadata parsing, the native CRD codec and strategy
(`apiserver.Scheme` decode, `customresourcedefinition` strategy with
`rest.BeforeCreate`), the validator factory, `meta.Accessor` failure, and
the final `customresource` strategy with `rest.FillObjectMetaSystemFields`
plus `rest.BeforeCreate` (taking the gvk and object as normalized at
strategy-construction time). -/
structure Env where
  unmarshalTypeMeta : Doc → Except String TypeMeta
  crdDecode : Doc → Except KError NativeObj
  crdBeforeCreate : NativeObj → Option KError
  validatorsForGVK : GVK → Except String Validators
  metaAccessorErr : Obj → Option String
  beforeCreate : GVK → Bool → Obj → Option KError

/-- Observable calls of one `ValidateDocument` run, recorded alongside
the returned error. -/
inductive Event where
  | nativeCRD
  | calledValidators (gvk : GVK)
  | decoded (gvk : GVK) (obj : Obj)
  | builtStrategy (gvk : GVK) (isNamespaced : Bool) (obj : Obj)
deriving DecidableEq, Repr

/-- Embedding of the dispatch condition of validate.go line 256: the
self-referential CRD kind handled by the native-type path. -/
def isCRDGVK (gvk : GVK) : Bool :=
  gvk.group == "apiextensions.k8s.io" && gvk.kind == "CustomResourceDefinition"

/-- Embedding of validate.go lines 304-307: default the namespace of a
namespaced object to "default" when unset. -/
def defaultNamespace (isNamespaced : Bool) (obj : Obj) : Obj :=
  if isNamespaced && obj.ns == "" then { obj with ns := "default" } else obj

/-- Embedding of validate.go lines 308-313: rewrite the legacy core
`v1` apiVersion to group `core` / apiVersion `core/v1`. -/
def rewriteCore (gvk : GVK) (obj : Obj) : GVK × Obj :=
  if obj.apiVersion == "v1" then
    ({ gvk with group := "core" }, { obj with apiVersion := "core/v1" })
  else (gvk, obj)

/-- Embedding of `ValidateDocument` (validate.go lines 241-321), paired
with the event trace of the run. -/
def ValidateDocument (env : Env) (document : Doc) : Option KError × List Event :=
  match env.unmarshalTypeMeta document with
  | .error m => (some (.wrap "failed to parse yaml: " (.msg m)), [])
  | .ok metadata =>
    let gvk := fromAPIVersionAndKind metadata.apiVersion metadata.kind
    if gvk.Empty then
      (some (.msg "GVK cannot be empty"), [])
    else if isCRDGVK gvk then
      match env.crdDecode document with
      | .error e => (some e, [.nativeCRD])
      | .ok obj => (env.crdBeforeCreate obj, [.nativeCRD])
    else
      match env.validatorsForGVK gvk with
      | .error m =>
        (some (.wrap "failed to retrieve validator: " (.msg m)), [.calledValidators gvk])
      | .ok validators =>
        match validators.structuralSchemaRes with
        | (_, some e) => (some e, [.calledValidators gvk])
        | (none, none) => (none, [.calledValidators gvk])
        | (some _, none) =>
          match validators.decoderFor gvk with
          | .error e => (some e, [.calledValidators gvk])
          | .ok decoder =>
            if !decoder.hasYamlSupport then
              (some (.msg "unsupported media type \"application/yaml\""), [.calledValidators gvk])
            else
              match decoder.decode document gvk with
              | .error e => (some e, [.calledValidators gvk])
              | .ok obj =>
                match env.metaAccessorErr obj with
                | some m =>
                  (some (.fieldErr { type := "FieldValueInvalid", field := "metadata",
                                     badValue := "", detail := m }),
                   [.calledValidators gvk, .decoded gvk obj])
                | none =>
                  let isNamespaced := validators.isNamespaceScoped
                  let norm := rewriteCore gvk (defaultNamespace isNamespaced obj)
                  (env.beforeCreate norm.1 isNamespaced norm.2,
                   [.calledValidators gvk, .decoded gvk obj,
                    .builtStrategy norm.1 isNamespaced norm.2])

/-- Oracles for the external collaborators of `ValidateFile`:
`os.ReadFile` and the `pkg/utils` helpers. -/
structure FileEnv where
  readFile : String → Except String Doc
  isYaml : String → Bool
  splitYamlDocuments : Doc → Except KError (List Doc)
  isEmptyYamlDocument : Doc → Bool

/-- Embedding of `ValidateFile` (validate.go lines 215-239); `none`
entries model nil errors. -/
def ValidateFile (fenv : FileEnv) (env : Env) (filePath : String) : List (Option KError) :=
  match fenv.readFile filePath with
  | .error m => [some (.wrap "error reading file: " (.msg m))]
  | .ok fileBytes =>
    if fenv.isYaml filePath then
      match fenv.splitYamlDocuments fileBytes with
      | .error e => [some e]
      | .ok documents =>
        documents.map (fun document =>
          if fenv.isEmptyYamlDocument document then none
          else (ValidateDocument env document).1)
    else
      [(ValidateDocument env fileBytes).1]

/-- Embedding of the `FilesErrors` map (validate.go line 63) as an
association list with pairwise-distinct keys (a Go map invariant stated
where a proof needs it). -/
abbrev FilesErrors := List (String × List (Option KError))

/-- Map lookup `fe[path]`: a missing key yields the nil slice. -/
def lookupPath (fe : FilesErrors) (path : String) : List (Option KError) :=
  match fe.find? (fun p => p.1 == path) with
  | some p => p.2
  | none => []

/-- Embedding of `FilesErrors.hasFileError` (validate.go lines 76-83). -/
def FilesErrors.hasFileError (fe : FilesErrors) (path : String) : Bool :=
  (lookupPath fe path).any (fun err => !err.isNone)

/-- Embedding of `FilesErrors.hasError` (validate.go lines 66-73). -/
def FilesErrors.hasError (fe : FilesErrors) : Bool :=
  fe.any (fun p => fe.hasFileError p.1)

/-- Embedding of the per-file loop and final exit decision of `Run`
(validate.go lines 192-212).  Factory construction, file discovery and
rendering failures return earlier in `Run` and are outside this model;
the claim about the exit status is conditioned on all files having been
processed. -/
def Run (fenv : FileEnv) (env : Env) (files : List String) :
    FilesErrors × Option String :=
  let filesErrors : FilesErrors :=
    files.map (fun path => (path, ValidateFile fenv env path))
  (filesErrors,
   if filesErrors.hasError then some "found some errors in the manifests" else none)

/-- Body of the `range filesErrors` loop of `printHumanErrors`
(validate.go lines 324-336): the accumulator pairs the chunks written to
`outWriter` and to `errWriter`. -/
def printHumanStep (fe : FilesErrors) (acc : List String × List String)
    (p : String × List (Option KError)) : List String × List String :=
  let out1 := acc.1 ++ ["\n\x1b[1m" ++ p.1 ++ "\x1b[0m..."]
  if fe.hasFileError p.1 then
    (out1 ++ ["\x1b[31mERROR\x1b[0m\n"],
     acc.2 ++ p.2.filterMap (fun err => err.map (fun e => e.message ++ "\n")))
  else
    (out1 ++ ["\x1b[32mOK\x1b[0m\n"], acc.2)

/-- Embedding of `printHumanErrors` (validate.go lines 323-338): the
iteration order of the Go map is modelled by the order of the
association-list entries, and the result pairs the `outWriter` and
`errWriter` streams. -/
def printHumanErrors (fe : FilesErrors) : List String × List String :=
  fe.foldl (printHumanStep fe) ([], [])

/-- Modelled from the spec: the `outWriter` stream the spec describes
for human rendering, one header and one OK or ERROR marker per file in
iteration order. -/
def humanOutputSpec (fe : FilesErrors) (l : FilesErrors) : List String :=
  l.flatMap (fun p =>
    ["\n\x1b[1m" ++ p.1 ++ "\x1b[0m...",
     if fe.hasFileError p.1 then "\x1b[31mERROR\x1b[0m\n" else "\x1b[32mOK\x1b[0m\n"])

/-- Modelled from the spec: the `errWriter` stream the spec describes
for human rendering, the non-nil error messages of each failing file in
document order. -/
def humanErrorSpec (fe : FilesErrors) (l : FilesErrors) : List String :=
  l.flatMap (fun p =>
    if fe.hasFileError p.1 then
      p.2.filterMap (fun err => err.map (fun e => e.message ++ "\n"))
    else [])

/-- Embedding of `printJsonErrors` (validate.go lines 340-353): the
status lists keyed by path (JSON marshalling of the external library is
outside the model; per-path lists preserve document order). -/
def printJsonErrors (fe : FilesErrors) : List (String × List Status) :=
  fe.map (fun p => (p.1, p.2.map errorToStatus))

/-- Fixture: type metadata of a core Pod document. -/
def tmPod : TypeMeta := { apiVersion := "v1", kind := "Pod" }

/-- Fixture: type metadata of a CustomResourceDefinition document. -/
def tmCRD : TypeMeta :=
  { apiVersion := "apiextensions.k8s.io/v1", kind := "CustomResourceDefinition" }

/-- Fixture: type metadata with no type identity. -/
def tmNone : TypeMeta := { apiVersion := "", kind := "" }

/-- Fixture: decoded Pod object with no namespace. -/
def objPod : Obj := { apiVersion := "v1", ns := "", payload := "pod" }

/-- Fixture: decoder succeeding with the Pod object. -/
def decoderHappy : DecoderT :=
  { hasYamlSupport := true, decode := fun _ _ => .ok objPod }

/-- Fixture: validators bundle with a structural schema. -/
def validatorsHappy : Validators :=
  { structuralSchemaRes := (some "ss", none),
    decoderFor := fun _ => .ok decoderHappy,
    isNamespaceScoped := true }

/-- Fixture: validators bundle whose StructuralSchema is nil with no
error. -/
def validatorsNoSchema : Validators :=
  { structuralSchemaRes := (none, none),
    decoderFor := fun _ => .ok decoderHappy,
    isNamespaceScoped := true }

/-- Fixture: environment whose oracles all succeed on a Pod document. -/
def envBase : Env :=
  { unmarshalTypeMeta := fun _ => .ok tmPod,
    crdDecode := fun _ => .ok "crdobj",
    crdBeforeCreate := fun _ => none,
    validatorsForGVK := fun _ => .ok validatorsHappy,
    metaAccessorErr := fun _ => none,
    beforeCreate := fun _ _ _ => none }

/-- Fixture: environment parsing every document as a CRD. -/
def envCRD : Env := { envBase with unmarshalTypeMeta := fun _ => .ok tmCRD }

/-- Fixture: environment parsing every document with empty type
metadata. -/
def envNoGVK : Env := { envBase with unmarshalTypeMeta := fun _ => .ok tmNone }

/-- Fixture: environment whose validators have no structural schema. -/
def envNoSchema : Env :=
  { envBase with validatorsForGVK := fun _ => .ok validatorsNoSchema }

/-- Claim C1: a document whose GVK has group `apiextensions.k8s.io` and
kind `CustomResourceDefinition` is validated solely via the fixed
native-type decode-and-BeforeCreate path (trace is exactly the native
CRD event, the result is the native decode / BeforeCreate outcome, and
`ValidatorsForGVK` is never called); a document with any other GVK never
takes the native-type path. -/
theorem validateDocument_crd_dispatch (env : Env) (document : Doc) (tm : TypeMeta)
    (h1 : env.unmarshalTypeMeta document = .ok tm) :
    (isCRDGVK (fromAPIVersionAndKind tm.apiVersion tm.kind) = true →
       (ValidateDocument env document).2 = [Event.nativeCRD]
       ∧ (ValidateDocument env document).1 =
           (match env.crdDecode document with
            | .error e => some e
            | .ok obj => env.crdBeforeCreate obj)
       ∧ ∀ g : GVK, Event.calledValidators g ∉ (ValidateDocument env document).2)
    ∧ (isCRDGVK (fromAPIVersionAndKind tm.apiVersion tm.kind) = false →
       Event.nativeCRD ∉ (ValidateDocument env document).2) := by
  constructor
  · intro hc
    have hg : (fromAPIVersionAndKind tm.apiVersion tm.kind).group = "apiextensions.k8s.io" := by
      have := hc
      unfold isCRDGVK at this
      simp only [Bool.and_eq_true, beq_iff_eq] at this
      exact this.1
    have hE : (fromAPIVersionAndKind tm.apiVersion tm.kind).Empty = false := by
      unfold GVK.Empty
      rw [hg]
      simp
    unfold ValidateDocument
    rw [h1]
    simp only [hE, hc, Bool.false_eq_true, if_false, if_true]
    cases hd : env.crdDecode document <;> simp [hd]
  · intro hc
    unfold ValidateDocument
    rw [h1]
    by_cases hE : (fromAPIVersionAndKind tm.apiVersion tm.kind).Empty = true
    · simp [hE]
    · simp only [Bool.not_eq_true] at hE
      simp only [hE, hc, Bool.false_eq_true, if_false]
      cases hv : env.validatorsForGVK (fromAPIVersionAndKind tm.apiVersion tm.kind) with
      | error m => simp
      | ok validators =>
        rcases hs : validators.structuralSchemaRes with ⟨sOpt, eOpt⟩
        cases eOpt with
        | some e => simp [hs]
        | none =>
          cases sOpt with
          | none => simp [hs]
          | some ss =>
            cases hd : validators.decoderFor (fromAPIVersionAndKind tm.apiVersion tm.kind) with
            | error e => simp [hs, hd]
            | ok decoder =>
              by_cases hy : decoder.hasYamlSupport = true
              · cases hdec : decoder.decode document (fromAPIVersionAndKind tm.apiVersion tm.kind) with
                | error e => simp [hs, hd, hy, hdec]
                | ok obj =>
                  cases hm : env.metaAccessorErr obj with
                  | some m => simp [hs, hd, hy, hdec, hm]
                  | none => simp [hs, hd, hy, hdec, hm]
              · simp only [Bool.not_eq_true] at hy
                simp [hs, hd, hy]

/-- Witness for C1: a concrete CRD document takes the native path with a
nil result, and a concrete Pod document never emits the native event. -/
theorem validateDocument_crd_dispatch_witness :
    ((ValidateDocument envCRD "doc").2 = [Event.nativeCRD]
     ∧ (ValidateDocument envCRD "doc").1 = none)
    ∧ Event.nativeCRD ∉ (ValidateDocument envBase "doc").2 := by
  have h := (validateDocument_crd_dispatch envCRD "doc" tmCRD rfl).1 (by decide)
  have h2 := (validateDocument_crd_dispatch envBase "doc" tmPod rfl).2 (by decide)
  exact ⟨⟨h.1, h.2.1.trans rfl⟩, h2⟩

/-- Claim C3: a document whose parsed type metadata yields an all-empty
GVK makes `ValidateDocument` return the "GVK cannot be empty" error and
perform no schema resolution (the trace is empty, so `ValidatorsForGVK`
is never called). -/
theorem validateDocument_empty_gvk (env : Env) (document : Doc) (tm : TypeMeta)
    (h1 : env.unmarshalTypeMeta document = .ok tm)
    (h2 : (fromAPIVersionAndKind tm.apiVersion tm.kind).Empty = true) :
    ValidateDocument env document = (some (.msg "GVK cannot be empty"), [])
    ∧ ∀ g : GVK, Event.calledValidators g ∉ (ValidateDocument env document).2 := by
  have hmain : ValidateDocument env document = (some (.msg "GVK cannot be empty"), []) := by
    unfold ValidateDocument
    rw [h1]
    simp [h2]
  refine ⟨hmain, ?_⟩
  rw [hmain]
  simp

/-- Witness for C3 at a concrete document with empty type metadata. -/
theorem validateDocument_empty_gvk_witness :
    ValidateDocument envNoGVK "doc" = (some (.msg "GVK cannot be empty"), [])
    ∧ ∀ g : GVK, Event.calledValidators g ∉ (ValidateDocument envNoGVK "doc").2 :=
  validateDocument_empty_gvk envNoGVK "doc" tmNone rfl (by decide)

/-- Claim C4: when the validators bundle's StructuralSchema is nil with
no error, `ValidateDocument` returns nil having only resolved the
validators (no decode event, no strategy event: no validation runs). -/
theorem validateDocument_no_structural_schema (env : Env) (document : Doc)
    (tm : TypeMeta) (validators : Validators)
    (h1 : env.unmarshalTypeMeta document = .ok tm)
    (hE : (fromAPIVersionAndKind tm.apiVersion tm.kind).Empty = false)
    (hC : isCRDGVK (fromAPIVersionAndKind tm.apiVersion tm.kind) = false)
    (h2 : env.validatorsForGVK (fromAPIVersionAndKind tm.apiVersion tm.kind) = .ok validators)
    (h3 : validators.structuralSchemaRes = (none, none)) :
    ValidateDocument env document =
      (none, [Event.calledValidators (fromAPIVersionAndKind tm.apiVersion tm.kind)]) := by
  unfold ValidateDocument
  rw [h1]
  simp [hE, hC, h2, h3]

/-- Witness for C4 at a concrete Pod document whose validators have no
structural schema. -/
theorem validateDocument_no_structural_schema_witness :
    ValidateDocument envNoSchema "doc" =
      (none, [Event.calledValidators (fromAPIVersionAndKind tmPod.apiVersion tmPod.kind)]) :=
  validateDocument_no_structural_schema envNoSchema "doc" tmPod validatorsNoSchema
    rfl (by decide) (by decide) rfl rfl

/-- Claim C2: when a document reaches the normalization step (metadata
parsed, GVK non-empty and not the CRD sentinel, validators resolved with
a structural schema, decode and meta accessor succeeded), the admission
strategy and BeforeCreate receive the normalized GVK and object: the
namespace is defaulted to "default" for a namespaced object with empty
namespace, and an apiVersion of exactly "v1" is rewritten to group
"core" / apiVersion "core/v1" before strategy construction. -/
theorem validateDocument_normalization (env : Env) (document : Doc)
    (tm : TypeMeta) (validators : Validators) (decoder : DecoderT)
    (ss : SSchema) (obj : Obj)
    (h1 : env.unmarshalTypeMeta document = .ok tm)
    (hE : (fromAPIVersionAndKind tm.apiVersion tm.kind).Empty = false)
    (hC : isCRDGVK (fromAPIVersionAndKind tm.apiVersion tm.kind) = false)
    (h2 : env.validatorsForGVK (fromAPIVersionAndKind tm.apiVersion tm.kind) = .ok validators)
    (h3 : validators.structuralSchemaRes = (some ss, none))
    (h4 : validators.decoderFor (fromAPIVersionAndKind tm.apiVersion tm.kind) = .ok decoder)
    (h5 : decoder.hasYamlSupport = true)
    (h6 : decoder.decode document (fromAPIVersionAndKind tm.apiVersion tm.kind) = .ok obj)
    (h7 : env.metaAccessorErr obj = none) :
    ValidateDocument env document =
      (env.beforeCreate
         (rewriteCore (fromAPIVersionAndKind tm.apiVersion tm.kind)
            (defaultNamespace validators.isNamespaceScoped obj)).1
         validators.isNamespaceScoped
         (rewriteCore (fromAPIVersionAndKind tm.apiVersion tm.kind)
            (defaultNamespace validators.isNamespaceScoped obj)).2,
       [Event.calledValidators (fromAPIVersionAndKind tm.apiVersion tm.kind),
        Event.decoded (fromAPIVersionAndKind tm.apiVersion tm.kind) obj,
        Event.builtStrategy
          (rewriteCore (fromAPIVersionAndKind tm.apiVersion tm.kind)
             (defaultNamespace validators.isNamespaceScoped obj)).1
          validators.isNamespaceScoped
          (rewriteCore (fromAPIVersionAndKind tm.apiVersion tm.kind)
             (defaultNamespace validators.isNamespaceScoped obj)).2])
    ∧ (validators.isNamespaceScoped = true → obj.ns = "" →
        (rewriteCore (fromAPIVersionAndKind tm.apiVersion tm.kind)
           (defaultNamespace validators.isNamespaceScoped obj)).2.ns = "default")
    ∧ (obj.apiVersion = "v1" →
        (rewriteCore (fromAPIVersionAndKind tm.apiVersion tm.kind)
           (defaultNamespace validators.isNamespaceScoped obj)).1.group = "core"
        ∧ (rewriteCore (fromAPIVersionAndKind tm.apiVersion tm.kind)
             (defaultNamespace validators.isNamespaceScoped obj)).2.apiVersion = "core/v1") := by
  refine ⟨?_, ?_, ?_⟩
  · unfold ValidateDocument
    rw [h1]
    simp [hE, hC, h2, h3, h4, h5, h6, h7]
  · intro hns hempty
    have hd : defaultNamespace validators.isNamespaceScoped obj =
        { obj with ns := "default" } := by
      unfold defaultNamespace
      rw [hns, hempty]
      simp
    rw [hd]
    unfold rewriteCore
    by_cases hv : obj.apiVersion == "v1"
    · simp [hv]
    · simp only [Bool.not_eq_true] at hv
      simp [hv]
  · intro hv
    have hda : (defaultNamespace validators.isNamespaceScoped obj).apiVersion = "v1" := by
      unfold defaultNamespace
      by_cases hn : (validators.isNamespaceScoped && obj.ns == "") = true
      · simp [hn, hv]
      · simp only [Bool.not_eq_true] at hn
        simp [hn, hv]
    unfold rewriteCore
    rw [hda]
    simp

/-- Witness for C2: a namespaced core-v1 Pod with no namespace reaches
BeforeCreate with namespace "default", group "core" and apiVersion
"core/v1". -/
theorem validateDocument_normalization_witness :
    ValidateDocument envBase "doc" =
      (none,
       [Event.calledValidators { group := "", version := "v1", kind := "Pod" },
        Event.decoded { group := "", version := "v1", kind := "Pod" } objPod,
        Event.builtStrategy { group := "core", version := "v1", kind := "Pod" } true
          { apiVersion := "core/v1", ns := "default", payload := "pod" }])
    ∧ ({ apiVersion := "core/v1", ns := "default", payload := "pod" } : Obj).ns = "default"
    ∧ ({ group := "core", version := "v1", kind := "Pod" } : GVK).group = "core" := by
  have h := validateDocument_normalization envBase "doc" tmPod validatorsHappy
    decoderHappy "ss" objPod rfl (by decide) (by decide) rfl rfl rfl rfl rfl rfl
  refine ⟨?_, rfl, rfl⟩
  have h1 := h.1
  have h2 := h.2.1 rfl rfl
  have h3 := h.2.2 rfl
  rw [h1]
  rfl

/-- Fixture: file oracle splitting a yaml file into an empty document
followed by one non-empty document. -/
def fenvYaml : FileEnv :=
  { readFile := fun _ => .ok "content",
    isYaml := fun _ => true,
    splitYamlDocuments := fun _ => .ok ["", "docA"],
    isEmptyYamlDocument := fun d => d == "" }

/-- Fixture: file oracle whose read fails. -/
def fenvReadErr : FileEnv := { fenvYaml with readFile := fun _ => .error "boom" }

/-- Fixture: file oracle whose yaml split fails. -/
def fenvSplitErr : FileEnv :=
  { fenvYaml with splitYamlDocuments := fun _ => .error (.msg "bad yaml") }

/-- Fixture: file oracle for a non-yaml file. -/
def fenvNotYaml : FileEnv := { fenvYaml with isYaml := fun _ => false }

/-- Claim C5: when a yaml file's documents split successfully,
`ValidateFile` returns one entry per document in document order; an
empty document yields the distinguished nil entry (and is not
validated), and a non-empty document's entry is its `ValidateDocument`
result. -/
theorem validateFile_yaml_documents (fenv : FileEnv) (env : Env) (filePath : String)
    (fileBytes : Doc) (documents : List Doc)
    (h1 : fenv.readFile filePath = .ok fileBytes)
    (h2 : fenv.isYaml filePath = true)
    (h3 : fenv.splitYamlDocuments fileBytes = .ok documents) :
    ValidateFile fenv env filePath =
      documents.map (fun document =>
        if fenv.isEmptyYamlDocument document then none
        else (ValidateDocument env document).1)
    ∧ (ValidateFile fenv env filePath).length = documents.length
    ∧ ∀ (i : Nat) (hi : i < documents.length),
        (ValidateFile fenv env filePath)[i]? =
          some (if fenv.isEmptyYamlDocument (documents.get ⟨i, hi⟩) then none
                else (ValidateDocument env (documents.get ⟨i, hi⟩)).1) := by
  have hmain : ValidateFile fenv env filePath =
      documents.map (fun document =>
        if fenv.isEmptyYamlDocument document then none
        else (ValidateDocument env document).1) := by
    unfold ValidateFile
    rw [h1]
    simp [h2, h3]
  refine ⟨hmain, ?_, ?_⟩
  · rw [hmain]
    simp
  · intro i hi
    rw [hmain]
    simp [List.getElem?_map, List.getElem?_eq_getElem hi]

/-- Witness for C5: a two-document yaml file with an empty first
document and an identity-free second document yields a nil entry
followed by the GVK-empty error. -/
theorem validateFile_yaml_documents_witness :
    ValidateFile fenvYaml envNoGVK "f.yaml" =
      [none, some (.msg "GVK cannot be empty")]
    ∧ (ValidateFile fenvYaml envNoGVK "f.yaml").length = 2 :=
  ⟨((validateFile_yaml_documents fenvYaml envNoGVK "f.yaml" "content" ["", "docA"]
      rfl rfl rfl).1).trans rfl,
   (validateFile_yaml_documents fenvYaml envNoGVK "f.yaml" "content" ["", "docA"]
      rfl rfl rfl).2.1⟩

/-- Claim C10: a failing read or a failing yaml split yields a
single-entry list holding that one error, and a non-yaml file is
validated as exactly one document. -/
theorem validateFile_single_entry (fenv : FileEnv) (env : Env) (filePath : String) :
    (∀ m : String, fenv.readFile filePath = .error m →
       ValidateFile fenv env filePath = [some (.wrap "error reading file: " (.msg m))])
    ∧ (∀ (fileBytes : Doc) (e : KError), fenv.readFile filePath = .ok fileBytes →
         fenv.isYaml filePath = true →
         fenv.splitYamlDocuments fileBytes = .error e →
         ValidateFile fenv env filePath = [some e])
    ∧ (∀ fileBytes : Doc, fenv.readFile filePath = .ok fileBytes →
         fenv.isYaml filePath = false →
         ValidateFile fenv env filePath = [(ValidateDocument env fileBytes).1]) := by
  refine ⟨?_, ?_, ?_⟩
  · intro m hm
    unfold ValidateFile
    rw [hm]
  · intro fileBytes e hb hy hs
    unfold ValidateFile
    rw [hb]
    simp [hy, hs]
  · intro fileBytes hb hy
    unfold ValidateFile
    rw [hb]
    simp [hy]

/-- Witness for C10: the three fallback shapes at concrete file
oracles. -/
theorem validateFile_single_entry_witness :
    ValidateFile fenvReadErr envBase "f" =
      [some (.wrap "error reading file: " (.msg "boom"))]
    ∧ ValidateFile fenvSplitErr envBase "f" = [some (.msg "bad yaml")]
    ∧ ValidateFile fenvNotYaml envBase "f" = [(ValidateDocument envBase "content").1] :=
  ⟨(validateFile_single_entry fenvReadErr envBase "f").1 "boom" rfl,
   (validateFile_single_entry fenvSplitErr envBase "f").2.1 "content" (.msg "bad yaml") rfl rfl rfl,
   (validateFile_single_entry fenvNotYaml envBase "f").2.2 "content" rfl rfl⟩

/-- Helper: looking up the key of an entry of a duplicate-free
association list yields that entry's value. -/
lemma lookupPath_of_mem (fe : FilesErrors) (p : String × List (Option KError))
    (hnd : (fe.map Prod.fst).Nodup) (hp : p ∈ fe) :
    lookupPath fe p.1 = p.2 := by
  induction fe with
  | nil => cases hp
  | cons q rest ih =>
    rw [List.map_cons, List.nodup_cons] at hnd
    rw [List.mem_cons] at hp
    rcases hp with rfl | hp
    · unfold lookupPath
      simp
    · have hq : (q.1 == p.1) = false := by
        rw [beq_eq_false_iff_ne]
        intro h
        exact hnd.1 (h ▸ List.mem_map_of_mem Prod.fst hp)
      unfold lookupPath
      rw [List.find?_cons_of_neg _ (by simp [hq])]
      exact ih hnd.2 hp

/-- Helper: `hasFileError` holds exactly when the path's own entry list
contains a non-nil error. -/
lemma hasFileError_iff (fe : FilesErrors) (path : String) :
    fe.hasFileError path = true ↔ ∃ e ∈ lookupPath fe path, e ≠ none := by
  unfold FilesErrors.hasFileError
  rw [List.any_eq_true]
  constructor
  · rintro ⟨e, he, hb⟩
    refine ⟨e, he, ?_⟩
    simpa [Option.isSome_iff_ne_none] using hb
  · rintro ⟨e, he, hb⟩
    refine ⟨e, he, ?_⟩
    simpa [Option.isSome_iff_ne_none] using hb

/-- Helper: over a duplicate-free map, `hasError` holds exactly when
some entry holds a non-nil error. -/
lemma hasError_iff (fe : FilesErrors) (hnd : (fe.map Prod.fst).Nodup) :
    fe.hasError = true ↔ ∃ p ∈ fe, ∃ e ∈ p.2, e ≠ none := by
  unfold FilesErrors.hasError
  rw [List.any_eq_true]
  constructor
  · rintro ⟨p, hp, hb⟩
    obtain ⟨e, he, hne⟩ := (hasFileError_iff fe p.1).mp hb
    rw [lookupPath_of_mem fe p hnd hp] at he
    exact ⟨p, hp, e, he, hne⟩
  · rintro ⟨p, hp, e, he, hne⟩
    refine ⟨p, hp, (hasFileError_iff fe p.1).mpr ?_⟩
    rw [lookupPath_of_mem fe p hnd hp]
    exact ⟨e, he, hne⟩

/-- Claim C7: `hasError` holds exactly when some file's entry list has a
non-nil error; `hasFileError path` holds exactly when that path's own
entry list has a non-nil error, and it depends only on that path's
entries. -/
theorem filesErrors_queries (fe : FilesErrors) (path : String)
    (hnd : (fe.map Prod.fst).Nodup) :
    (fe.hasError = true ↔ ∃ p ∈ fe, ∃ e ∈ p.2, e ≠ none)
    ∧ (fe.hasFileError path = true ↔ ∃ e ∈ lookupPath fe path, e ≠ none)
    ∧ (∀ fe2 : FilesErrors, lookupPath fe2 path = lookupPath fe path →
        fe2.hasFileError path = fe.hasFileError path) := by
  refine ⟨hasError_iff fe hnd, hasFileError_iff fe path, ?_⟩
  intro fe2 h
  unfold FilesErrors.hasFileError
  rw [h]

/-- Witness for C7 at a concrete two-file map with one failing file. -/
theorem filesErrors_queries_witness :
    FilesErrors.hasError [("a", [none]), ("b", [some (.msg "e")])] = true
    ∧ FilesErrors.hasFileError [("a", [none]), ("b", [some (.msg "e")])] "b" = true := by
  have h := filesErrors_queries [("a", [none]), ("b", [some (.msg "e")])] "b" (by decide)
  constructor
  · exact h.1.mpr ⟨("b", [some (.msg "e")]), by simp, some (.msg "e"), by simp, by simp⟩
  · exact h.2.1.mpr ⟨some (.msg "e"), by simp [lookupPath], by simp⟩

/-- Claim C8: after all files are processed, `Run` returns a non-nil
error exactly when the accumulated FilesErrors holds a non-nil error
entry in some file. -/
theorem run_exit_status (fenv : FileEnv) (env : Env) (files : List String)
    (hnd : files.Nodup) :
    ((Run fenv env files).2 ≠ none ↔ (Run fenv env files).1.hasError = true)
    ∧ ((Run fenv env files).2 ≠ none ↔
        ∃ p ∈ (Run fenv env files).1, ∃ e ∈ p.2, e ≠ none) := by
  have hkeys : ((Run fenv env files).1.map Prod.fst).Nodup := by
    show ((files.map (fun path => (path, ValidateFile fenv env path))).map Prod.fst).Nodup
    rw [List.map_map]
    have hc : (Prod.fst ∘ fun path => (path, ValidateFile fenv env path)) = id := rfl
    rw [hc, List.map_id]
    exact hnd
  have h1 : (Run fenv env files).2 ≠ none ↔ (Run fenv env files).1.hasError = true := by
    by_cases h :
        FilesErrors.hasError (files.map (fun path => (path, ValidateFile fenv env path))) = true
    · simp [Run, h]
    · rw [Bool.not_eq_true] at h
      simp [Run, h]
  exact ⟨h1, h1.trans (hasError_iff _ hkeys)⟩

/-- Witness for C8: one failing file makes `Run` return a non-nil error,
and an all-passing file leaves it nil. -/
theorem run_exit_status_witness :
    (Run fenvYaml envNoGVK ["f"]).2.isSome = true
    ∧ (Run fenvYaml envBase ["f"]).2 = none := by
  have hbad := (run_exit_status fenvYaml envNoGVK ["f"] (by decide)).1
  have hok := (run_exit_status fenvYaml envBase ["f"] (by decide)).1
  constructor
  · exact Option.isSome_iff_ne_none.mpr (hbad.mpr rfl)
  · by_contra hc
    have ht := hok.mp hc
    have hf : (Run fenvYaml envBase ["f"]).1.hasError = false := rfl
    rw [hf] at ht
    exact Bool.false_ne_true ht

/-- Fixture: a concrete field error. -/
def fe0 : FieldError :=
  { type := "FieldValueInvalid", field := "spec.x", badValue := "3", detail := "bad" }

/-- Claim C6 (amended): machine rendering converts each document slot
into exactly one status record, nil becoming success; an aggregate is
split into field errors and other errors; when every element of the
aggregate is a field error, the invalid status carries each field error
individually as a cause; an aggregate holding any non-field error is
rendered as one internal-error status (its field errors are not carried
individually). -/
theorem errorToStatus_machine (fe : FilesErrors) :
    ((printJsonErrors fe).length = fe.length
      ∧ ∀ p ∈ fe, (p.1, p.2.map errorToStatus) ∈ printJsonErrors fe)
    ∧ errorToStatus none = statusSuccess
    ∧ (∀ errs : List KError, (∀ e ∈ errs, (asFieldErr e).isSome = true) →
        errorToStatus (some (.aggregate errs)) = newInvalid (errs.filterMap asFieldErr)
        ∧ ∀ e ∈ errs, ∀ f : FieldError, asFieldErr e = some f →
            causeOfFieldError f ∈ (newInvalid (errs.filterMap asFieldErr)).details.getD [])
    ∧ (∀ errs : List KError, (∃ e ∈ errs, (asFieldErr e).isNone = true) →
        (errorToStatus (some (.aggregate errs))).reason = "InternalError") := by
  refine ⟨⟨by simp [printJsonErrors], ?_⟩, rfl, ?_, ?_⟩
  · intro p hp
    unfold printJsonErrors
    exact List.mem_map.mpr ⟨p, hp, rfl⟩
  · intro errs hall
    have hred : errorToStatus (some (.aggregate errs)) =
        (if (errs.filter (fun e => (asFieldErr e).isNone)).isEmpty
         then newInvalid (errs.filterMap asFieldErr)
         else newInternalError
                (joinedMessage (errs.filter (fun e => (asFieldErr e).isNone)))) := rfl
    have hfil : errs.filter (fun e => (asFieldErr e).isNone) = [] := by
      rw [List.filter_eq_nil_iff]
      intro e he
      rcases Option.isSome_iff_exists.mp (hall e he) with ⟨f, hf⟩
      simp [hf]
    have hmain : errorToStatus (some (.aggregate errs)) =
        newInvalid (errs.filterMap asFieldErr) := by
      rw [hred, hfil]
      rfl
    refine ⟨hmain, ?_⟩
    intro e he f hf
    unfold newInvalid
    simp only [Option.getD_some]
    exact List.mem_map.mpr ⟨f, List.mem_filterMap.mpr ⟨e, he, hf⟩, rfl⟩
  · intro errs hex
    have hred : errorToStatus (some (.aggregate errs)) =
        (if (errs.filter (fun e => (asFieldErr e).isNone)).isEmpty
         then newInvalid (errs.filterMap asFieldErr)
         else newInternalError
                (joinedMessage (errs.filter (fun e => (asFieldErr e).isNone)))) := rfl
    have hfil : errs.filter (fun e => (asFieldErr e).isNone) ≠ [] := by
      intro hnil
      rw [List.filter_eq_nil_iff] at hnil
      obtain ⟨e, he, hn⟩ := hex
      exact hnil e he hn
    have hie : (errs.filter (fun e => (asFieldErr e).isNone)).isEmpty = false := by
      cases hl : errs.filter (fun e => (asFieldErr e).isNone) with
      | nil => exact absurd hl hfil
      | cons a t => rfl
    rw [hred, hie]
    rfl

/-- Witness for C6 at a concrete map and a concrete all-field-error
aggregate. -/
theorem errorToStatus_machine_witness :
    ("a", [statusSuccess]) ∈ printJsonErrors [("a", [none])]
    ∧ errorToStatus (some (.aggregate [.fieldErr fe0])) = newInvalid [fe0]
    ∧ (errorToStatus (some (.aggregate [.msg "boom"]))).reason = "InternalError" := by
  have h := errorToStatus_machine [("a", [none])]
  refine ⟨?_, ?_, ?_⟩
  · have := h.1.2 ("a", [none]) (by simp)
    simpa using this
  · have := (h.2.2.1 [.fieldErr fe0] (by intro e he; simp at he; rw [he]; rfl)).1
    simpa using this
  · exact h.2.2.2 [.msg "boom"] ⟨.msg "boom", by simp, rfl⟩

/-- Counterexample for C6 as stated: an aggregate holding one field
error and one other error is rendered as a single internal-error status
whose causes do not carry the field error. -/
theorem errorToStatus_mixed_counterexample :
    (errorToStatus (some (.aggregate [.fieldErr fe0, .msg "boom"]))).reason = "InternalError"
    ∧ (errorToStatus (some (.aggregate [.fieldErr fe0, .msg "boom"]))).details =
        some [{ type := "", message := "boom", field := "" }]
    ∧ causeOfFieldError fe0 ∉
        (errorToStatus (some (.aggregate [.fieldErr fe0, .msg "boom"]))).details.getD [] := by
  refine ⟨rfl, rfl, ?_⟩
  decide


/-- Helper: the human renderer's fold appends the output and error
streams of the remaining entries to the accumulator. -/
lemma printHuman_foldl (fe : FilesErrors) (l : FilesErrors)
    (acc : List String × List String) :
    l.foldl (printHumanStep fe) acc =
      (acc.1 ++ humanOutputSpec fe l, acc.2 ++ humanErrorSpec fe l) := by
  induction l generalizing acc with
  | nil => simp [humanOutputSpec, humanErrorSpec]
  | cons p rest ih =>
    rw [List.foldl_cons, ih]
    unfold printHumanStep humanOutputSpec humanErrorSpec
    by_cases h : fe.hasFileError p.1 = true
    · simp [h, List.append_assoc]
    · rw [Bool.not_eq_true] at h
      simp [h, List.append_assoc]

/-- Claim C9 (amended): human rendering is a function of the FilesErrors
content together with its iteration order: one header and one OK or
ERROR marker per file in iteration order on the output stream, and on
the error stream the non-nil error messages of each failing file in
document order.  Because `FilesErrors` is a hash map, the per-file
iteration order is the map's, not the input-argument order. -/
theorem printHumanErrors_order (fe : FilesErrors) :
    printHumanErrors fe = (humanOutputSpec fe fe, humanErrorSpec fe fe) := by
  unfold printHumanErrors
  rw [printHuman_foldl]
  simp

/-- Fixture: a failing file and a passing file, in one iteration
order. -/
def feAB : FilesErrors := [("a", [some (.msg "ea")]), ("b", [])]

/-- Fixture: the same map content in the other iteration order. -/
def feBA : FilesErrors := [("b", []), ("a", [some (.msg "ea")])]

/-- Counterexample for C9 as stated: the same FilesErrors map content,
iterated in the two orders a Go map range may produce across runs,
yields different human outputs, so the output is neither deterministic
across runs nor tied to input-argument order. -/
theorem printHumanErrors_order_counterexample :
    feAB.Perm feBA ∧ printHumanErrors feAB ≠ printHumanErrors feBA := by
  constructor
  · exact List.Perm.swap _ _ _
  · intro h
    have h1 : (printHumanErrors feAB).1.head? = some "\n\x1b[1ma\x1b[0m..." := rfl
    rw [h] at h1
    have h2 : (printHumanErrors feBA).1.head? = some "\n\x1b[1mb\x1b[0m..." := rfl
    rw [h1] at h2
    simp at h2
